import Mathlib

/-!
Verification development for libebur128, the EBU R128 loudness measurement
library.  The public header `src/libebur128/ebur128.h` fixes the error codes,
the channel roles, the mode flag bits and the contracts of every API entry
point; those are embedded directly from the header.  The implementation file
`ebur128.c` is not part of the sources, so the behaviour of the DSP and
gating engine is modelled from the specification document (sample ingestion
in sect. 4.1, the K-weighting filter in sect. 4.2, the block accumulator in
sect. 4.3, gated integrated loudness in sect. 4.4, loudness range in
sect. 4.5 and the mode state machine in sect. 4.7).

Energies (mean squares of weighted samples) are embedded as rationals.  The
conversion from a mean-square energy to loudness,
L(e) = -0.691 + 10 * log10 e, is irrational-valued, so every definition that
needs it takes the map `L : Q -> Q` as an explicit parameter standing for
that strictly monotone conversion; the gates of the spec are expressed in
the loudness domain through `L` exactly as the spec words them.
-/

/-- Error return values, from `enum error` in ebur128.h. -/
def EBUR128_SUCCESS : Nat := 0

/-- From `enum error` in ebur128.h. -/
def EBUR128_ERROR_NOMEM : Nat := 1

/-- From `enum error` in ebur128.h. -/
def EBUR128_ERROR_INVALID_MODE : Nat := 2

/-- From `enum error` in ebur128.h. -/
def EBUR128_ERROR_INVALID_CHANNEL_INDEX : Nat := 3

/-- From `enum error` in ebur128.h. -/
def EBUR128_ERROR_NO_CHANGE : Nat := 4

/-- Channel roles, from `enum channel` in ebur128.h. -/
def EBUR128_UNUSED : Nat := 0

/-- From `enum channel` in ebur128.h. -/
def EBUR128_LEFT : Nat := 1

/-- From `enum channel` in ebur128.h. -/
def EBUR128_RIGHT : Nat := 2

/-- From `enum channel` in ebur128.h. -/
def EBUR128_CENTER : Nat := 3

/-- From `enum channel` in ebur128.h. -/
def EBUR128_LEFT_SURROUND : Nat := 4

/-- From `enum channel` in ebur128.h. -/
def EBUR128_RIGHT_SURROUND : Nat := 5

/-- From `enum channel` in ebur128.h. -/
def EBUR128_DUAL_MONO : Nat := 6

/-- Mode flag, from `enum mode` in ebur128.h: `EBUR128_MODE_M = (1 << 0)`. -/
def EBUR128_MODE_M : Nat := 1 <<< 0

/-- From ebur128.h: `EBUR128_MODE_S = (1 << 1) | EBUR128_MODE_M`. -/
def EBUR128_MODE_S : Nat := (1 <<< 1) ||| EBUR128_MODE_M

/-- From ebur128.h: `EBUR128_MODE_I = (1 << 2) | EBUR128_MODE_M`. -/
def EBUR128_MODE_I : Nat := (1 <<< 2) ||| EBUR128_MODE_M

/-- From ebur128.h: `EBUR128_MODE_LRA = (1 << 3) | EBUR128_MODE_S`. -/
def EBUR128_MODE_LRA : Nat := (1 <<< 3) ||| EBUR128_MODE_S

/-- From ebur128.h: `EBUR128_MODE_SAMPLE_PEAK = (1 << 4) | EBUR128_MODE_M`. -/
def EBUR128_MODE_SAMPLE_PEAK : Nat := (1 <<< 4) ||| EBUR128_MODE_M

/-- From ebur128.h: `EBUR128_MODE_TRUE_PEAK = (1 << 5) | EBUR128_MODE_M`. -/
def EBUR128_MODE_TRUE_PEAK : Nat := (1 <<< 5) ||| EBUR128_MODE_M

/-- From ebur128.h: `EBUR128_MODE_HISTOGRAM = (1 << 6)`. -/
def EBUR128_MODE_HISTOGRAM : Nat := 1 <<< 6

/-- A mode word `m` has the flag `flag` set, in the sense the C code tests it:
`(mode & flag) == flag`. -/
def modeSet (m flag : Nat) : Prop := m &&& flag = flag

instance (m flag : Nat) : Decidable (modeSet m flag) :=
  inferInstanceAs (Decidable (m &&& flag = flag))

/-- Coefficients of the two cascaded biquads of the K-weighting filter
(sect. 4.2 of the spec): stage 1 is the high shelf, stage 2 the high pass. -/
structure KCoeffs where
  b10 : ℚ
  b11 : ℚ
  b12 : ℚ
  a11 : ℚ
  a12 : ℚ
  b20 : ℚ
  b21 : ℚ
  b22 : ℚ
  a21 : ℚ
  a22 : ℚ
deriving DecidableEq

/-- All-zero placeholder coefficient set, usable as a concrete instance. -/
def zeroKCoeffs : KCoeffs := ⟨0, 0, 0, 0, 0, 0, 0, 0, 0, 0⟩

/-- Per-channel IIR delay line: two delay elements per stage, two stages,
four values per channel (spec sect. 4.2 and the data model table). -/
structure FilterMem where
  v11 : ℚ
  v12 : ℚ
  v21 : ℚ
  v22 : ℚ
deriving DecidableEq

/-- Zeroed filter delay line, the state after init or a parameter change. -/
def filterZero : FilterMem := ⟨0, 0, 0, 0⟩

/-- Modelled from the spec: one biquad stage with two delay elements
(transposed direct form II); `ebur128.c` is absent from the sources.
Returns the output sample and the two updated delay values. -/
def biquadStage (b0 b1 b2 a1 a2 x s1 s2 : ℚ) : ℚ × ℚ × ℚ :=
  let y := b0 * x + s1
  (y, b1 * x - a1 * y + s2, b2 * x - a2 * y)

/-- Modelled from the spec (sect. 4.2): the two-stage K-weighting cascade on
one sample of one channel; `ebur128.c` is absent from the sources. -/
def kfilter (c : KCoeffs) (fm : FilterMem) (x : ℚ) : ℚ × FilterMem :=
  let r1 := biquadStage c.b10 c.b11 c.b12 c.a11 c.a12 x fm.v11 fm.v12
  let r2 := biquadStage c.b20 c.b21 c.b22 c.a21 c.a22 r1.1 fm.v21 fm.v22
  (r2.1, ⟨r1.2.1, r1.2.2, r2.2.1, r2.2.2⟩)

/-- Modelled from the spec (data model): channel weights.  Unused -> 0;
Left, Right, Center -> 1; surround channels -> 1.41; DualMono counted
twice -> 2. -/
def channelWeight (role : Nat) : ℚ :=
  if role = EBUR128_UNUSED then 0
  else if role = EBUR128_LEFT_SURROUND ∨ role = EBUR128_RIGHT_SURROUND then 141 / 100
  else if role = EBUR128_DUAL_MONO then 2
  else 1

/-- Default channel map, from the doc comment of `ebur128_set_channel` in
ebur128.h: 0 -> LEFT, 1 -> RIGHT, 2 -> CENTER, 3 -> UNUSED,
4 -> LEFT_SURROUND, 5 -> RIGHT_SURROUND, larger indices UNUSED. -/
def defaultChannelValue (i : Nat) : Nat :=
  if i = 0 then EBUR128_LEFT
  else if i = 1 then EBUR128_RIGHT
  else if i = 2 then EBUR128_CENTER
  else if i = 3 then EBUR128_UNUSED
  else if i = 4 then EBUR128_LEFT_SURROUND
  else if i = 5 then EBUR128_RIGHT_SURROUND
  else EBUR128_UNUSED

/-- The default channel map for a given channel count. -/
def defaultChannelMap (channels : Nat) : List Nat :=
  (List.range channels).map defaultChannelValue

/-- Largest absolute value occurring in a list (0 for the empty list). -/
def maxAbs (l : List ℚ) : ℚ := l.foldl (fun m x => max m |x|) 0

/-- Mean of the trailing `w` entries of a buffer, the mean-square energy of
a window of `w` frames (spec sect. 4.3). -/
def windowEnergy (buf : List ℚ) (w : Nat) : ℚ :=
  (buf.drop (buf.length - w)).sum / (w : ℚ)

/-- The measurement state, mirroring `ebur128_state` of ebur128.h together
with the internal fields the spec's data model lists (the header hides them
behind `ebur128_state_internal`, whose definition is not in the sources;
those fields are modelled from the spec).  The audio buffer is kept as the
most recent per-frame channel-summed weighted squared samples, an
equivalent layout the spec explicitly permits (sect. 4.1). -/
structure ebur128_state where
  mode : Nat
  channels : Nat
  samplerate : Nat
  channel_map : List Nat
  filter_coeffs : KCoeffs
  filter_state : List FilterMem
  audio_buffer : List ℚ
  needed_frames : Nat
  block_list_400 : List ℚ
  block_list_3000 : List ℚ
  sample_peak : List ℚ
  true_peak : List ℚ
deriving DecidableEq

/-- Modelled from the spec (lifecycle, sect. 3 and 4.3): `ebur128_init`.
`ebur128.c` is absent from the sources.  The filter coefficients are
precomputed from the sample rate; the (irrational-valued) coefficient
formulas are abstracted as the parameter `coeffsOf`. -/
def ebur128_init (coeffsOf : Nat → KCoeffs) (channels samplerate mode : Nat) :
    ebur128_state :=
  { mode := mode
    channels := channels
    samplerate := samplerate
    channel_map := defaultChannelMap channels
    filter_coeffs := coeffsOf samplerate
    filter_state := List.replicate channels filterZero
    audio_buffer := []
    needed_frames := samplerate / 10
    block_list_400 := []
    block_list_3000 := []
    sample_peak := List.replicate channels 0
    true_peak := List.replicate channels 0 }

/-- Modelled from the spec (sect. 4.1 and 4.3): ingestion of one interleaved
frame; `ebur128.c` is absent from the sources.  Per channel: the sample peak
is updated on the unfiltered sample when SAMPLE_PEAK is set; the true peak is
updated from the oversampled magnitudes when TRUE_PEAK is set, where
`phases` gives the interpolated values between original samples - ideal
band-limited interpolation reproduces the original samples exactly, so the
input sample itself is always among the oversampler outputs; the K-weighting
filter runs and the weighted squared output is accumulated into the audio
buffer.  The `needed_frames` counter decrements once per frame; at zero a
100 ms block boundary is emitted: the 400 ms window energy is appended to
`block_list_400` when MODE_I is set, the 3 s window energy to
`block_list_3000` when MODE_LRA is set, in both cases only once the window
is fully populated (sect. 4.3), and the counter resets to a 100 ms hop. -/
def stepFrame (phases : ℚ → List ℚ) (st : ebur128_state) (frame : List ℚ) :
    ebur128_state :=
  let sample := fun c => frame.getD c 0
  let sp :=
    if st.mode &&& EBUR128_MODE_SAMPLE_PEAK = EBUR128_MODE_SAMPLE_PEAK then
      (List.range st.channels).map
        (fun c => max (st.sample_peak.getD c 0) |sample c|)
    else st.sample_peak
  let tp :=
    if st.mode &&& EBUR128_MODE_TRUE_PEAK = EBUR128_MODE_TRUE_PEAK then
      (List.range st.channels).map
        (fun c => max (st.true_peak.getD c 0)
          (maxAbs (sample c :: phases (sample c))))
    else st.true_peak
  let filtered := (List.range st.channels).map
    (fun c => kfilter st.filter_coeffs (st.filter_state.getD c filterZero) (sample c))
  let fs := filtered.map Prod.snd
  let frameEnergy :=
    ((List.range st.channels).map
      (fun c =>
        channelWeight (st.channel_map.getD c EBUR128_UNUSED) *
          ((filtered.getD c (0, filterZero)).1 * (filtered.getD c (0, filterZero)).1))).sum
  let buf0 := st.audio_buffer ++ [frameEnergy]
  let buf :=
    if 3 * st.samplerate < buf0.length then
      buf0.drop (buf0.length - 3 * st.samplerate)
    else buf0
  if st.needed_frames - 1 = 0 then
    { st with
      sample_peak := sp
      true_peak := tp
      filter_state := fs
      audio_buffer := buf
      needed_frames := st.samplerate / 10
      block_list_400 :=
        if st.mode &&& EBUR128_MODE_I = EBUR128_MODE_I ∧
            4 * (st.samplerate / 10) ≤ buf.length then
          st.block_list_400 ++ [windowEnergy buf (4 * (st.samplerate / 10))]
        else st.block_list_400
      block_list_3000 :=
        if st.mode &&& EBUR128_MODE_LRA = EBUR128_MODE_LRA ∧
            30 * (st.samplerate / 10) ≤ buf.length then
          st.block_list_3000 ++ [windowEnergy buf (30 * (st.samplerate / 10))]
        else st.block_list_3000 }
  else
    { st with
      sample_peak := sp
      true_peak := tp
      filter_state := fs
      audio_buffer := buf
      needed_frames := st.needed_frames - 1 }

/-- Modelled from the spec (sect. 4.1): `ebur128_add_frames_*`, at frame
granularity (each frame is the list of its channel samples); `ebur128.c` is
absent from the sources.  Allocation failure is not modelled, so the call
always succeeds. -/
def ebur128_add_frames (phases : ℚ → List ℚ) (st : ebur128_state)
    (frames : List (List ℚ)) : Nat × ebur128_state :=
  (EBUR128_SUCCESS, frames.foldl (stepFrame phases) st)

/-- A loudness value as the queries report it: either the negative-infinity
sentinel (-HUGE_VAL in the header) or a finite loudness in LUFS. -/
inductive LoudnessResult where
  | negInf : LoudnessResult
  | lufs : ℚ → LoudnessResult
deriving DecidableEq

/-- Mean mean-square of a list of block energies. -/
def energyMean (l : List ℚ) : ℚ := l.sum / (l.length : ℚ)

/-- Modelled from the spec (sect. 4.4 step 1 and 4.5 step 1): the absolute
gate, discarding every block whose per-block loudness is below -70 LUFS;
`ebur128.c` is absent from the sources. -/
def absGated (L : ℚ → ℚ) (blocks : List ℚ) : List ℚ :=
  blocks.filter (fun e => decide ((-70 : ℚ) ≤ L e))

/-- Modelled from the spec (sect. 4.4 step 3 and 4.5 step 2): a relative
gate, discarding every block whose loudness is below the threshold `γ`;
`ebur128.c` is absent from the sources. -/
def relGated (L : ℚ → ℚ) (γ : ℚ) (blocks : List ℚ) : List ℚ :=
  blocks.filter (fun e => decide (γ ≤ L e))

/-- Modelled from the spec (sect. 4.4): the two-pass gated reduction of the
400 ms block energies; `ebur128.c` is absent from the sources.  Absolute
gate at -70 LUFS; the loudness of the mean mean-square of the survivors is
Gamma_a; relative gate at Gamma_a - 10 LU; the result is the loudness of
the mean mean-square of the twice-gated blocks, and negative infinity when
no block survives. -/
def gated_loudness (L : ℚ → ℚ) (blocks : List ℚ) : LoudnessResult :=
  let g1 := absGated L blocks
  if g1.isEmpty then LoudnessResult.negInf
  else
    let g2 := relGated L (L (energyMean g1) - 10) g1
    if g2.isEmpty then LoudnessResult.negInf
    else LoudnessResult.lufs (L (energyMean g2))

/-- Modelled from the spec (sect. 4.3): the mean-square energy of the last
`hops` 100 ms hops of audio, available once that window is fully
populated; `ebur128.c` is absent from the sources. -/
def energy_in_window (st : ebur128_state) (hops : Nat) : Option ℚ :=
  let w := hops * (st.samplerate / 10)
  if 0 < w ∧ w ≤ st.audio_buffer.length then some (windowEnergy st.audio_buffer w)
  else none

/-- Loudness of a sliding window: the negative-infinity sentinel when the
window is not yet populated or holds no energy, else the loudness of its
mean square. -/
def loudnessOfWindow (L : ℚ → ℚ) (st : ebur128_state) (hops : Nat) :
    LoudnessResult :=
  match energy_in_window st hops with
  | none => LoudnessResult.negInf
  | some e => if e ≤ 0 then LoudnessResult.negInf else LoudnessResult.lufs (L e)

/-- Modelled from the spec (sect. 4.7 and the header contract, ebur128.h
lines 187-195): `ebur128_loudness_momentary`.  The header documents SUCCESS
as the only return value, so no mode check is performed; the momentary
loudness of the last 400 ms (4 hops) is always written to the out
parameter.  `ebur128.c` is absent from the sources. -/
def ebur128_loudness_momentary (L : ℚ → ℚ) (st : ebur128_state)
    (out : LoudnessResult) : Nat × LoudnessResult :=
  (EBUR128_SUCCESS, loudnessOfWindow L st 4)

/-- Modelled from the spec (sect. 4.7, error handling sect. 7) and the
header contract (ebur128.h lines 196-205): `ebur128_loudness_shortterm`
requires EBUR128_MODE_S, else INVALID_MODE with the out parameter
unchanged.  `ebur128.c` is absent from the sources. -/
def ebur128_loudness_shortterm (L : ℚ → ℚ) (st : ebur128_state)
    (out : LoudnessResult) : Nat × LoudnessResult :=
  if modeSet st.mode EBUR128_MODE_S then
    (EBUR128_SUCCESS, loudnessOfWindow L st 30)
  else (EBUR128_ERROR_INVALID_MODE, out)

/-- Modelled from the spec (sect. 4.4, 4.7) and the header contract
(ebur128.h lines 163-172): `ebur128_loudness_global` requires
EBUR128_MODE_I, else INVALID_MODE with the out parameter unchanged; on
success the two-pass gated loudness of the 400 ms block history is written.
`ebur128.c` is absent from the sources. -/
def ebur128_loudness_global (L : ℚ → ℚ) (st : ebur128_state)
    (out : LoudnessResult) : Nat × LoudnessResult :=
  if modeSet st.mode EBUR128_MODE_I then
    (EBUR128_SUCCESS, gated_loudness L st.block_list_400)
  else (EBUR128_ERROR_INVALID_MODE, out)

/-- Linear interpolation into a sorted list at a (rational) rank: the value
at index floor(h), plus the fractional part of `h` times the difference to
the next value (spec sect. 4.5 step 4). -/
def interpolatedRank (vs : List ℚ) (h : ℚ) : ℚ :=
  let i := (⌊h⌋).toNat
  let frac := h - (i : ℚ)
  vs.getD i 0 + frac * (vs.getD (i + 1) 0 - vs.getD i 0)

/-- Modelled from the spec (sect. 4.5): the loudness range reduction over
the 3 s block energies; `ebur128.c` is absent from the sources.  Absolute
gate at -70 LUFS; relative gate at Gamma_i - 20 LU where Gamma_i is the
loudness of the mean mean-square of the absolutely gated blocks; the
surviving per-block loudnesses are sorted ascending and the result is the
interpolated 95th percentile minus the interpolated 10th percentile, at
ranks 0.95 * (n - 1) and 0.1 * (n - 1); fewer than two survivors give
0 LU. -/
def lra_value (L : ℚ → ℚ) (blocks : List ℚ) : ℚ :=
  let g1 := absGated L blocks
  if g1.isEmpty then 0
  else
    let g2 := relGated L (L (energyMean g1) - 20) g1
    if g2.length < 2 then 0
    else
      let vs := List.insertionSort (· ≤ ·) (g2.map L)
      interpolatedRank vs ((95 / 100) * ((g2.length : ℚ) - 1)) -
        interpolatedRank vs ((10 / 100) * ((g2.length : ℚ) - 1))

/-- Modelled from the spec (sect. 4.5, 4.7) and the header contract
(ebur128.h lines 207-220): `ebur128_loudness_range` requires
EBUR128_MODE_LRA, else INVALID_MODE with the out parameter unchanged.
`ebur128.c` is absent from the sources (allocation failure, the header's
NOMEM case, is not modelled). -/
def ebur128_loudness_range (L : ℚ → ℚ) (st : ebur128_state) (out : ℚ) :
    Nat × ℚ :=
  if modeSet st.mode EBUR128_MODE_LRA then
    (EBUR128_SUCCESS, lra_value L st.block_list_3000)
  else (EBUR128_ERROR_INVALID_MODE, out)

/-- Modelled from the spec (sect. 4.7) and the header contract (ebur128.h
lines 239-252): `ebur128_sample_peak` requires EBUR128_MODE_SAMPLE_PEAK and
a valid channel index; on error the out parameter is unchanged.
`ebur128.c` is absent from the sources. -/
def ebur128_sample_peak (st : ebur128_state) (channel_number : Nat) (out : ℚ) :
    Nat × ℚ :=
  if ¬ modeSet st.mode EBUR128_MODE_SAMPLE_PEAK then
    (EBUR128_ERROR_INVALID_MODE, out)
  else if st.channels ≤ channel_number then
    (EBUR128_ERROR_INVALID_CHANNEL_INDEX, out)
  else (EBUR128_SUCCESS, st.sample_peak.getD channel_number 0)

/-- Modelled from the spec (sect. 4.6, 4.7) and the header contract
(ebur128.h lines 253-272): `ebur128_true_peak` requires
EBUR128_MODE_TRUE_PEAK and a valid channel index; on error the out
parameter is unchanged.  `ebur128.c` is absent from the sources. -/
def ebur128_true_peak (st : ebur128_state) (channel_number : Nat) (out : ℚ) :
    Nat × ℚ :=
  if ¬ modeSet st.mode EBUR128_MODE_TRUE_PEAK then
    (EBUR128_ERROR_INVALID_MODE, out)
  else if st.channels ≤ channel_number then
    (EBUR128_ERROR_INVALID_CHANNEL_INDEX, out)
  else (EBUR128_SUCCESS, st.true_peak.getD channel_number 0)

/-- Modelled from the spec (sect. 4.7, lifecycle) and the header contract
(ebur128.h lines 120-136): `ebur128_change_parameters`.  When both the
channel count and the sample rate equal the current values, NO_CHANGE is
returned and the state is untouched.  Otherwise the channel map is reset to
the defaults, the per-channel filter state is reallocated and zeroed, the
filter coefficients are recomputed for the new rate, the audio buffer is
reallocated (losing the current unfinished 100 ms block, whose counter
restarts at one hop of the new rate), and the block history is preserved.
`ebur128.c` is absent from the sources (allocation failure is not
modelled). -/
def ebur128_change_parameters (coeffsOf : Nat → KCoeffs) (st : ebur128_state)
    (channels samplerate : Nat) : Nat × ebur128_state :=
  if channels = st.channels ∧ samplerate = st.samplerate then
    (EBUR128_ERROR_NO_CHANGE, st)
  else
    (EBUR128_SUCCESS,
      { st with
        channels := channels
        samplerate := samplerate
        channel_map := defaultChannelMap channels
        filter_coeffs := coeffsOf samplerate
        filter_state := List.replicate channels filterZero
        audio_buffer := []
        needed_frames := samplerate / 10 })

/-- The six mode flags that enable measurements (all but HISTOGRAM). -/
def measurementFlags : List Nat :=
  [EBUR128_MODE_M, EBUR128_MODE_S, EBUR128_MODE_I, EBUR128_MODE_LRA,
   EBUR128_MODE_SAMPLE_PEAK, EBUR128_MODE_TRUE_PEAK]

lemma modeSet_of_and_eq {m f g : Nat} (hgf : g &&& f = g) (hmf : modeSet m f) :
    modeSet m g := by
  unfold modeSet at hmf ⊢
  apply Nat.eq_of_testBit_eq
  intro i
  rw [Nat.testBit_and]
  cases hg : g.testBit i with
  | false => simp [hg]
  | true =>
    have hf : f.testBit i = true := by
      have h1 := congrArg (fun n => Nat.testBit n i) hgf
      simp only [Nat.testBit_and, hg, Bool.true_and] at h1
      exact h1
    have hm : m.testBit i = true := by
      have h2 := congrArg (fun n => Nat.testBit n i) hmf
      simp only [Nat.testBit_and, hf, Bool.and_true] at h2
      exact h2
    simp [hm]

/-- C5: the mode enum forms an implication lattice: EBUR128_MODE_S,
EBUR128_MODE_I, EBUR128_MODE_SAMPLE_PEAK and EBUR128_MODE_TRUE_PEAK each
include the EBUR128_MODE_M bit, and EBUR128_MODE_LRA includes
EBUR128_MODE_S (hence also EBUR128_MODE_M); therefore every state whose
mode has any of these flags set also has the momentary measurement flag
set, and every state with LRA set also has the short-term flag set. -/
theorem mode_implication_lattice :
    modeSet EBUR128_MODE_S EBUR128_MODE_M ∧
    modeSet EBUR128_MODE_I EBUR128_MODE_M ∧
    modeSet EBUR128_MODE_SAMPLE_PEAK EBUR128_MODE_M ∧
    modeSet EBUR128_MODE_TRUE_PEAK EBUR128_MODE_M ∧
    modeSet EBUR128_MODE_LRA EBUR128_MODE_S ∧
    modeSet EBUR128_MODE_LRA EBUR128_MODE_M ∧
    (∀ st : ebur128_state,
      (modeSet st.mode EBUR128_MODE_S ∨ modeSet st.mode EBUR128_MODE_I ∨
        modeSet st.mode EBUR128_MODE_SAMPLE_PEAK ∨
        modeSet st.mode EBUR128_MODE_TRUE_PEAK) →
      modeSet st.mode EBUR128_MODE_M) ∧
    (∀ st : ebur128_state,
      modeSet st.mode EBUR128_MODE_LRA → modeSet st.mode EBUR128_MODE_S) :=
  ⟨by decide, by decide, by decide, by decide, by decide, by decide,
   fun _ h => by
    rcases h with h | h | h | h
    · exact modeSet_of_and_eq (by decide) h
    · exact modeSet_of_and_eq (by decide) h
    · exact modeSet_of_and_eq (by decide) h
    · exact modeSet_of_and_eq (by decide) h,
   fun _ h => modeSet_of_and_eq (by decide) h⟩

/-- Witness for C5 at a concrete state: a state initialized with the LRA
flag has the short-term flag set. -/
theorem mode_implication_lattice_witness :
    modeSet (ebur128_init (fun _ => zeroKCoeffs) 2 48000 EBUR128_MODE_LRA).mode
      EBUR128_MODE_S ∧
    modeSet (ebur128_init (fun _ => zeroKCoeffs) 2 48000 EBUR128_MODE_LRA).mode
      EBUR128_MODE_M :=
  ⟨mode_implication_lattice.2.2.2.2.2.2.2
      (ebur128_init (fun _ => zeroKCoeffs) 2 48000 EBUR128_MODE_LRA) (by decide),
   mode_implication_lattice.2.2.2.2.2.2.1
      (ebur128_init (fun _ => zeroKCoeffs) 2 48000 EBUR128_MODE_LRA)
      (Or.inl (by decide))⟩

/-- C10: EBUR128_MODE_HISTOGRAM is the bare bit 1 << 6; it is the only mode
flag whose bitwise AND with EBUR128_MODE_M is zero, a mode word equal to
EBUR128_MODE_HISTOGRAM alone has none of the measurement flags set (so no
measurement query is enabled), and or-ing it onto EBUR128_MODE_I or
EBUR128_MODE_LRA leaves unchanged which of the measurement flags are set,
so it changes only the storage strategy, not which queries are allowed. -/
theorem mode_histogram_bare_bit :
    EBUR128_MODE_HISTOGRAM = 1 <<< 6 ∧
    EBUR128_MODE_HISTOGRAM &&& EBUR128_MODE_M = 0 ∧
    (∀ f ∈ [EBUR128_MODE_S, EBUR128_MODE_I, EBUR128_MODE_LRA,
        EBUR128_MODE_SAMPLE_PEAK, EBUR128_MODE_TRUE_PEAK],
      modeSet f EBUR128_MODE_M) ∧
    (∀ f ∈ measurementFlags, ¬ modeSet EBUR128_MODE_HISTOGRAM f) ∧
    (∀ f ∈ measurementFlags,
      (modeSet (EBUR128_MODE_I ||| EBUR128_MODE_HISTOGRAM) f ↔
        modeSet EBUR128_MODE_I f) ∧
      (modeSet (EBUR128_MODE_LRA ||| EBUR128_MODE_HISTOGRAM) f ↔
        modeSet EBUR128_MODE_LRA f)) := by
  decide

/-- C7: ebur128_change_parameters called with the current channel count and
sample rate returns EBUR128_ERROR_NO_CHANGE leaving the state completely
untouched, and it returns NO_CHANGE in exactly this case. -/
theorem change_parameters_no_change (coeffsOf : Nat → KCoeffs)
    (st : ebur128_state) (channels samplerate : Nat) :
    ((ebur128_change_parameters coeffsOf st channels samplerate).1 =
        EBUR128_ERROR_NO_CHANGE ↔
      channels = st.channels ∧ samplerate = st.samplerate) ∧
    (channels = st.channels → samplerate = st.samplerate →
      ebur128_change_parameters coeffsOf st channels samplerate =
        (EBUR128_ERROR_NO_CHANGE, st)) := by
  unfold ebur128_change_parameters
  by_cases h : channels = st.channels ∧ samplerate = st.samplerate
  · rw [if_pos h]
    exact ⟨⟨fun _ => h, fun _ => rfl⟩, fun _ _ => rfl⟩
  · rw [if_neg h]
    constructor
    · constructor
      · intro hs
        have hne : EBUR128_SUCCESS ≠ EBUR128_ERROR_NO_CHANGE := by decide
        exact absurd hs hne
      · intro hc
        exact absurd hc h
    · intro h1 h2
      exact absurd ⟨h1, h2⟩ h

/-- Witness for C7 at a concrete state: identical parameters give NO_CHANGE
and the untouched state. -/
theorem change_parameters_no_change_witness :
    ebur128_change_parameters (fun _ => zeroKCoeffs)
        (ebur128_init (fun _ => zeroKCoeffs) 2 48000 EBUR128_MODE_I) 2 48000 =
      (EBUR128_ERROR_NO_CHANGE,
        ebur128_init (fun _ => zeroKCoeffs) 2 48000 EBUR128_MODE_I) :=
  (change_parameters_no_change (fun _ => zeroKCoeffs)
      (ebur128_init (fun _ => zeroKCoeffs) 2 48000 EBUR128_MODE_I) 2 48000).2
    rfl rfl

/-- C8: a successful ebur128_change_parameters call (the parameters
actually changed) resets the channel map to the defaults, reallocates and
zeroes the per-channel filter state, recomputes the filter coefficients for
the new sample rate, discards the unfinished 100 ms block (empty audio
buffer, block counter restarted at one hop), and leaves the accumulated
block history untouched. -/
theorem change_parameters_success_effects (coeffsOf : Nat → KCoeffs)
    (st : ebur128_state) (channels samplerate : Nat)
    (h : ¬ (channels = st.channels ∧ samplerate = st.samplerate)) :
    ebur128_change_parameters coeffsOf st channels samplerate =
      (EBUR128_SUCCESS,
        { st with
          channels := channels
          samplerate := samplerate
          channel_map := defaultChannelMap channels
          filter_coeffs := coeffsOf samplerate
          filter_state := List.replicate channels filterZero
          audio_buffer := []
          needed_frames := samplerate / 10 }) ∧
    (ebur128_change_parameters coeffsOf st channels samplerate).2.block_list_400 =
      st.block_list_400 ∧
    (ebur128_change_parameters coeffsOf st channels samplerate).2.block_list_3000 =
      st.block_list_3000 ∧
    (ebur128_change_parameters coeffsOf st channels samplerate).2.channel_map =
      defaultChannelMap channels ∧
    (ebur128_change_parameters coeffsOf st channels samplerate).2.filter_state =
      List.replicate channels filterZero ∧
    (ebur128_change_parameters coeffsOf st channels samplerate).2.filter_coeffs =
      coeffsOf samplerate ∧
    (ebur128_change_parameters coeffsOf st channels samplerate).2.needed_frames =
      samplerate / 10 := by
  unfold ebur128_change_parameters
  rw [if_neg h]
  exact ⟨rfl, rfl, rfl, rfl, rfl, rfl, rfl⟩

/-- Witness for C8 at a concrete state: changing the sample rate from
48000 to 44100 succeeds, resets the transient fields and keeps the block
history. -/
theorem change_parameters_success_effects_witness :
    ebur128_change_parameters (fun _ => zeroKCoeffs)
        (ebur128_init (fun _ => zeroKCoeffs) 2 48000 EBUR128_MODE_I) 2 44100 =
      (EBUR128_SUCCESS,
        { ebur128_init (fun _ => zeroKCoeffs) 2 48000 EBUR128_MODE_I with
          channels := 2
          samplerate := 44100
          channel_map := defaultChannelMap 2
          filter_coeffs := zeroKCoeffs
          filter_state := List.replicate 2 filterZero
          audio_buffer := []
          needed_frames := 44100 / 10 }) ∧
    (ebur128_change_parameters (fun _ => zeroKCoeffs)
        (ebur128_init (fun _ => zeroKCoeffs) 2 48000 EBUR128_MODE_I)
        2 44100).2.block_list_400 =
      (ebur128_init (fun _ => zeroKCoeffs) 2 48000 EBUR128_MODE_I).block_list_400 :=
  ⟨(change_parameters_success_effects (fun _ => zeroKCoeffs)
      (ebur128_init (fun _ => zeroKCoeffs) 2 48000 EBUR128_MODE_I) 2 44100
      (by decide)).1,
   (change_parameters_success_effects (fun _ => zeroKCoeffs)
      (ebur128_init (fun _ => zeroKCoeffs) 2 48000 EBUR128_MODE_I) 2 44100
      (by decide)).2.1⟩

/-- C9: for every state whose mode includes EBUR128_MODE_M the momentary
query is always allowed: it returns EBUR128_SUCCESS and writes the
momentary loudness of the last 400 ms (four 100 ms hops, or the negative
infinity sentinel) to the out parameter; moreover - unlike the other
loudness queries - no mode check exists at all, so the status is
EBUR128_SUCCESS and never EBUR128_ERROR_INVALID_MODE for any state. -/
theorem loudness_momentary_always_success (L : ℚ → ℚ) (st : ebur128_state)
    (out : LoudnessResult) (hM : modeSet st.mode EBUR128_MODE_M) :
    ebur128_loudness_momentary L st out =
      (EBUR128_SUCCESS, loudnessOfWindow L st 4) ∧
    (ebur128_loudness_momentary L st out).1 ≠ EBUR128_ERROR_INVALID_MODE ∧
    (∀ (st' : ebur128_state) (out' : LoudnessResult),
      (ebur128_loudness_momentary L st' out').1 = EBUR128_SUCCESS) :=
  ⟨rfl, show EBUR128_SUCCESS ≠ EBUR128_ERROR_INVALID_MODE by decide,
   fun _ _ => rfl⟩

/-- Witness for C9 at a concrete state with mode M. -/
theorem loudness_momentary_always_success_witness :
    ebur128_loudness_momentary (fun e => e)
        (ebur128_init (fun _ => zeroKCoeffs) 1 10 EBUR128_MODE_M)
        LoudnessResult.negInf =
      (EBUR128_SUCCESS,
        loudnessOfWindow (fun e => e)
          (ebur128_init (fun _ => zeroKCoeffs) 1 10 EBUR128_MODE_M) 4) :=
  (loudness_momentary_always_success (fun e => e)
      (ebur128_init (fun _ => zeroKCoeffs) 1 10 EBUR128_MODE_M)
      LoudnessResult.negInf (by decide)).1

/-- C4: each query with a required mode flag (short-term needs S, global
needs I, range needs LRA, sample peak needs SAMPLE_PEAK, true peak needs
TRUE_PEAK) returns EBUR128_ERROR_INVALID_MODE with the out parameter
untouched when the state's mode lacks the flag, and never returns
EBUR128_ERROR_INVALID_MODE when the flag is present. -/
theorem query_required_mode_contracts (L : ℚ → ℚ) (st : ebur128_state)
    (out : LoudnessResult) (outr outp : ℚ) (c : Nat) :
    (¬ modeSet st.mode EBUR128_MODE_S →
      ebur128_loudness_shortterm L st out = (EBUR128_ERROR_INVALID_MODE, out)) ∧
    (modeSet st.mode EBUR128_MODE_S →
      (ebur128_loudness_shortterm L st out).1 ≠ EBUR128_ERROR_INVALID_MODE) ∧
    (¬ modeSet st.mode EBUR128_MODE_I →
      ebur128_loudness_global L st out = (EBUR128_ERROR_INVALID_MODE, out)) ∧
    (modeSet st.mode EBUR128_MODE_I →
      (ebur128_loudness_global L st out).1 ≠ EBUR128_ERROR_INVALID_MODE) ∧
    (¬ modeSet st.mode EBUR128_MODE_LRA →
      ebur128_loudness_range L st outr = (EBUR128_ERROR_INVALID_MODE, outr)) ∧
    (modeSet st.mode EBUR128_MODE_LRA →
      (ebur128_loudness_range L st outr).1 ≠ EBUR128_ERROR_INVALID_MODE) ∧
    (¬ modeSet st.mode EBUR128_MODE_SAMPLE_PEAK →
      ebur128_sample_peak st c outp = (EBUR128_ERROR_INVALID_MODE, outp)) ∧
    (modeSet st.mode EBUR128_MODE_SAMPLE_PEAK →
      (ebur128_sample_peak st c outp).1 ≠ EBUR128_ERROR_INVALID_MODE) ∧
    (¬ modeSet st.mode EBUR128_MODE_TRUE_PEAK →
      ebur128_true_peak st c outp = (EBUR128_ERROR_INVALID_MODE, outp)) ∧
    (modeSet st.mode EBUR128_MODE_TRUE_PEAK →
      (ebur128_true_peak st c outp).1 ≠ EBUR128_ERROR_INVALID_MODE) := by
  have hS : EBUR128_SUCCESS ≠ EBUR128_ERROR_INVALID_MODE := by decide
  have hC : EBUR128_ERROR_INVALID_CHANNEL_INDEX ≠ EBUR128_ERROR_INVALID_MODE := by
    decide
  refine ⟨?_, ?_, ?_, ?_, ?_, ?_, ?_, ?_, ?_, ?_⟩ <;> intro h
  · unfold ebur128_loudness_shortterm
    rw [if_neg h]
  · unfold ebur128_loudness_shortterm
    rw [if_pos h]
    exact hS
  · unfold ebur128_loudness_global
    rw [if_neg h]
  · unfold ebur128_loudness_global
    rw [if_pos h]
    exact hS
  · unfold ebur128_loudness_range
    rw [if_neg h]
  · unfold ebur128_loudness_range
    rw [if_pos h]
    exact hS
  · unfold ebur128_sample_peak
    rw [if_pos h]
  · unfold ebur128_sample_peak
    rw [if_neg (not_not_intro h)]
    split
    · exact hC
    · exact hS
  · unfold ebur128_true_peak
    rw [if_pos h]
  · unfold ebur128_true_peak
    rw [if_neg (not_not_intro h)]
    split
    · exact hC
    · exact hS

/-- Witness for C4: a state initialized with mode M only rejects the
short-term query (untouched out) and a state with mode S does not return
INVALID_MODE from it. -/
theorem query_required_mode_contracts_witness :
    ebur128_loudness_shortterm (fun e => e)
        (ebur128_init (fun _ => zeroKCoeffs) 1 10 EBUR128_MODE_M)
        LoudnessResult.negInf =
      (EBUR128_ERROR_INVALID_MODE, LoudnessResult.negInf) ∧
    (ebur128_loudness_shortterm (fun e => e)
        (ebur128_init (fun _ => zeroKCoeffs) 1 10 EBUR128_MODE_S)
        LoudnessResult.negInf).1 ≠ EBUR128_ERROR_INVALID_MODE :=
  ⟨(query_required_mode_contracts (fun e => e)
      (ebur128_init (fun _ => zeroKCoeffs) 1 10 EBUR128_MODE_M)
      LoudnessResult.negInf 0 0 0).1 (by decide),
   (query_required_mode_contracts (fun e => e)
      (ebur128_init (fun _ => zeroKCoeffs) 1 10 EBUR128_MODE_S)
      LoudnessResult.negInf 0 0 0).2.1 (by decide)⟩

lemma addFrames_flatten (phases : ℚ → List ℚ) :
    ∀ (batches : List (List (List ℚ))) (st : ebur128_state),
    batches.foldl (fun s b => (ebur128_add_frames phases s b).2) st =
      (ebur128_add_frames phases st batches.flatten).2
  | [], _ => rfl
  | b :: bs, st => by
    simp only [List.foldl_cons, List.flatten_cons]
    rw [addFrames_flatten phases bs]
    simp only [ebur128_add_frames, List.foldl_append]

/-- C3: ingesting a frame sequence in consecutive sub-batches produces a
state identical to ingesting it in one call - in particular bit-identical
block_list_400 and block_list_3000 histories - and consequently the
integrated loudness computed afterwards is identical as well. -/
theorem add_frames_batch_split (phases : ℚ → List ℚ) (st : ebur128_state)
    (batches : List (List (List ℚ))) :
    (batches.foldl (fun s b => (ebur128_add_frames phases s b).2) st).block_list_400 =
      ((ebur128_add_frames phases st batches.flatten).2).block_list_400 ∧
    (batches.foldl (fun s b => (ebur128_add_frames phases s b).2) st).block_list_3000 =
      ((ebur128_add_frames phases st batches.flatten).2).block_list_3000 ∧
    batches.foldl (fun s b => (ebur128_add_frames phases s b).2) st =
      (ebur128_add_frames phases st batches.flatten).2 ∧
    ∀ (L : ℚ → ℚ) (out : LoudnessResult),
      ebur128_loudness_global L
          (batches.foldl (fun s b => (ebur128_add_frames phases s b).2) st) out =
        ebur128_loudness_global L
          ((ebur128_add_frames phases st batches.flatten).2) out := by
  have h := addFrames_flatten phases batches st
  exact ⟨by rw [h], by rw [h], h, fun L out => by rw [h]⟩

/-- C1: for every state with EBUR128_MODE_I set and a non-empty 400 ms
block history, ebur128_loudness_global returns SUCCESS and applies the
two-pass gating: blocks whose loudness is below -70 LUFS are discarded,
Gamma_a is the loudness of the mean mean-square of the survivors, blocks
whose loudness is below Gamma_a - 10 LU are then discarded, and the out
value is the loudness of the mean mean-square of the twice-gated blocks -
or the negative-infinity sentinel, still with SUCCESS status, when no
block survives both gates. -/
theorem loudness_global_two_pass (L : ℚ → ℚ) (st : ebur128_state)
    (out : LoudnessResult) (hI : modeSet st.mode EBUR128_MODE_I)
    (hne : st.block_list_400 ≠ []) :
    (ebur128_loudness_global L st out).1 = EBUR128_SUCCESS ∧
    ∀ pass1 pass2 : List ℚ,
      pass1 = st.block_list_400.filter (fun e => decide ((-70 : ℚ) ≤ L e)) →
      pass2 = pass1.filter (fun e => decide (L (energyMean pass1) - 10 ≤ L e)) →
      (ebur128_loudness_global L st out).2 =
        if pass2.isEmpty then LoudnessResult.negInf
        else LoudnessResult.lufs (L (energyMean pass2)) := by
  unfold ebur128_loudness_global
  rw [if_pos hI]
  refine ⟨rfl, ?_⟩
  intro pass1 pass2 h1 h2
  subst h1
  subst h2
  show gated_loudness L st.block_list_400 = _
  unfold gated_loudness absGated relGated
  by_cases hab :
      (st.block_list_400.filter (fun e => decide ((-70 : ℚ) ≤ L e))).isEmpty
  · rw [if_pos hab]
    rw [List.isEmpty_iff] at hab
    rw [hab]
    rfl
  · rw [if_neg hab]

/-- Witness for C1 at a concrete state: mode I, one block of energy 1,
with the identity map standing for the loudness conversion. -/
theorem loudness_global_two_pass_witness :
    ((ebur128_loudness_global (fun e => e)
        { ebur128_init (fun _ => zeroKCoeffs) 1 10 EBUR128_MODE_I with
          block_list_400 := [1] } LoudnessResult.negInf).1 = EBUR128_SUCCESS ∧
    ∀ pass1 pass2 : List ℚ,
      pass1 = ({ ebur128_init (fun _ => zeroKCoeffs) 1 10 EBUR128_MODE_I with
          block_list_400 := [1] } : ebur128_state).block_list_400.filter
            (fun e => decide ((-70 : ℚ) ≤ (fun e => e) e)) →
      pass2 = pass1.filter
          (fun e => decide ((fun e => e) (energyMean pass1) - 10 ≤ (fun e => e) e)) →
      (ebur128_loudness_global (fun e => e)
          { ebur128_init (fun _ => zeroKCoeffs) 1 10 EBUR128_MODE_I with
            block_list_400 := [1] } LoudnessResult.negInf).2 =
        if pass2.isEmpty then LoudnessResult.negInf
        else LoudnessResult.lufs ((fun e => e) (energyMean pass2))) :=
  loudness_global_two_pass (fun e => e)
    { ebur128_init (fun _ => zeroKCoeffs) 1 10 EBUR128_MODE_I with
      block_list_400 := [1] } LoudnessResult.negInf (by decide) (by decide)

/-- C2: for every state with EBUR128_MODE_LRA set, ebur128_loudness_range
returns SUCCESS and reduces the 3 s block list: absolute gate at -70 LUFS,
relative gate at Gamma_i - 20 LU where Gamma_i is the loudness of the mean
mean-square of the absolutely gated blocks (a -20 LU offset, distinct from
the -10 LU of the integrated gate); with fewer than two survivors the
result is 0 LU, otherwise the surviving per-block loudnesses sorted
ascending yield the result as the interpolated value at rank
0.95 * (n - 1) minus the interpolated value at rank 0.1 * (n - 1). -/
theorem loudness_range_gating_percentiles (L : ℚ → ℚ) (st : ebur128_state)
    (outr : ℚ) (hLRA : modeSet st.mode EBUR128_MODE_LRA) :
    (ebur128_loudness_range L st outr).1 = EBUR128_SUCCESS ∧
    ((relGated L (L (energyMean (absGated L st.block_list_3000)) - 20)
        (absGated L st.block_list_3000)).length < 2 →
      (ebur128_loudness_range L st outr).2 = 0) ∧
    (∀ g2 : List ℚ,
      g2 = relGated L (L (energyMean (absGated L st.block_list_3000)) - 20)
          (absGated L st.block_list_3000) →
      2 ≤ g2.length →
      ∃ vs : List ℚ, vs.Perm (g2.map L) ∧ vs.Sorted (· ≤ ·) ∧
        (ebur128_loudness_range L st outr).2 =
          interpolatedRank vs ((95 / 100) * ((g2.length : ℚ) - 1)) -
            interpolatedRank vs ((10 / 100) * ((g2.length : ℚ) - 1))) := by
  unfold ebur128_loudness_range
  rw [if_pos hLRA]
  refine ⟨rfl, ?_, ?_⟩
  · intro hlt
    show lra_value L st.block_list_3000 = 0
    unfold lra_value
    by_cases h1 : (absGated L st.block_list_3000).isEmpty
    · rw [if_pos h1]
    · rw [if_neg h1, if_pos hlt]
  · intro g2 hg2 hlen
    subst hg2
    show ∃ vs : List ℚ, _ ∧ _ ∧ lra_value L st.block_list_3000 = _
    unfold lra_value
    by_cases h1 : (absGated L st.block_list_3000).isEmpty
    · exfalso
      rw [List.isEmpty_iff] at h1
      rw [h1] at hlen
      simp [relGated] at hlen
    · rw [if_neg h1, if_neg (Nat.not_lt.mpr hlen)]
      exact ⟨List.insertionSort (· ≤ ·)
          ((relGated L (L (energyMean (absGated L st.block_list_3000)) - 20)
            (absGated L st.block_list_3000)).map L),
        List.perm_insertionSort _ _, List.sorted_insertionSort _ _, rfl⟩

/-- Witness for C2 at a concrete state: mode LRA with an empty 3 s block
history, where fewer than two blocks survive and the range is 0 LU. -/
theorem loudness_range_gating_percentiles_witness :
    ((ebur128_loudness_range (fun e => e)
        (ebur128_init (fun _ => zeroKCoeffs) 1 10 EBUR128_MODE_LRA) 0).1 =
      EBUR128_SUCCESS ∧
    ((relGated (fun e => e)
        ((fun e => e) (energyMean (absGated (fun e => e)
          (ebur128_init (fun _ => zeroKCoeffs) 1 10 EBUR128_MODE_LRA).block_list_3000)) - 20)
        (absGated (fun e => e)
          (ebur128_init (fun _ => zeroKCoeffs) 1 10 EBUR128_MODE_LRA).block_list_3000)).length < 2 →
      (ebur128_loudness_range (fun e => e)
        (ebur128_init (fun _ => zeroKCoeffs) 1 10 EBUR128_MODE_LRA) 0).2 = 0) ∧
    (∀ g2 : List ℚ,
      g2 = relGated (fun e => e)
          ((fun e => e) (energyMean (absGated (fun e => e)
            (ebur128_init (fun _ => zeroKCoeffs) 1 10 EBUR128_MODE_LRA).block_list_3000)) - 20)
          (absGated (fun e => e)
            (ebur128_init (fun _ => zeroKCoeffs) 1 10 EBUR128_MODE_LRA).block_list_3000) →
      2 ≤ g2.length →
      ∃ vs : List ℚ, vs.Perm (g2.map (fun e => e)) ∧ vs.Sorted (· ≤ ·) ∧
        (ebur128_loudness_range (fun e => e)
            (ebur128_init (fun _ => zeroKCoeffs) 1 10 EBUR128_MODE_LRA) 0).2 =
          interpolatedRank vs ((95 / 100) * ((g2.length : ℚ) - 1)) -
            interpolatedRank vs ((10 / 100) * ((g2.length : ℚ) - 1)))) :=
  loudness_range_gating_percentiles (fun e => e)
    (ebur128_init (fun _ => zeroKCoeffs) 1 10 EBUR128_MODE_LRA) 0 (by decide)

lemma stepFrame_mode (phases : ℚ → List ℚ) (st : ebur128_state)
    (f : List ℚ) : (stepFrame phases st f).mode = st.mode := by
  by_cases hn : st.needed_frames - 1 = 0
  · simp only [stepFrame]
    rw [if_pos hn]
  · simp only [stepFrame]
    rw [if_neg hn]

lemma stepFrame_channels (phases : ℚ → List ℚ) (st : ebur128_state)
    (f : List ℚ) : (stepFrame phases st f).channels = st.channels := by
  by_cases hn : st.needed_frames - 1 = 0
  · simp only [stepFrame]
    rw [if_pos hn]
  · simp only [stepFrame]
    rw [if_neg hn]

lemma stepFrame_sample_peak (phases : ℚ → List ℚ) (st : ebur128_state)
    (f : List ℚ) :
    (stepFrame phases st f).sample_peak =
      if st.mode &&& EBUR128_MODE_SAMPLE_PEAK = EBUR128_MODE_SAMPLE_PEAK then
        (List.range st.channels).map
          (fun c => max (st.sample_peak.getD c 0) |f.getD c 0|)
      else st.sample_peak := by
  by_cases hn : st.needed_frames - 1 = 0
  · simp only [stepFrame]
    rw [if_pos hn]
  · simp only [stepFrame]
    rw [if_neg hn]

lemma stepFrame_true_peak (phases : ℚ → List ℚ) (st : ebur128_state)
    (f : List ℚ) :
    (stepFrame phases st f).true_peak =
      if st.mode &&& EBUR128_MODE_TRUE_PEAK = EBUR128_MODE_TRUE_PEAK then
        (List.range st.channels).map
          (fun c => max (st.true_peak.getD c 0)
            (maxAbs (f.getD c 0 :: phases (f.getD c 0))))
      else st.true_peak := by
  by_cases hn : st.needed_frames - 1 = 0
  · simp only [stepFrame]
    rw [if_pos hn]
  · simp only [stepFrame]
    rw [if_neg hn]

lemma getD_map_range (f : Nat → ℚ) (n c : Nat) :
    ((List.range n).map f).getD c 0 = if c < n then f c else 0 := by
  rcases lt_or_ge c n with h | h
  · rw [if_pos h, List.getD_eq_getElem?_getD, List.getElem?_map,
      List.getElem?_range h]
    rfl
  · rw [if_neg (not_lt.mpr h), List.getD_eq_getElem?_getD,
      List.getElem?_eq_none (by simpa using h)]
    rfl

lemma getD_replicate_zero (n c : Nat) :
    (List.replicate n (0 : ℚ)).getD c 0 = 0 := by
  rw [List.getD_eq_getElem?_getD, List.getElem?_replicate]
  split <;> rfl

lemma le_foldl_max (l : List ℚ) : ∀ a : ℚ, a ≤ l.foldl (fun m x => max m |x|) a := by
  induction l with
  | nil => exact fun a => le_refl a
  | cons x xs ih =>
    intro a
    rw [List.foldl_cons]
    exact le_trans (le_max_left a |x|) (ih (max a |x|))

lemma abs_le_maxAbs_cons (x : ℚ) (l : List ℚ) : |x| ≤ maxAbs (x :: l) := by
  unfold maxAbs
  rw [List.foldl_cons]
  exact le_trans (le_max_right 0 |x|) (le_foldl_max l (max 0 |x|))

lemma stepFrame_peakInv (phases : ℚ → List ℚ) (st : ebur128_state)
    (f : List ℚ) (hsp : modeSet st.mode EBUR128_MODE_SAMPLE_PEAK)
    (htp : modeSet st.mode EBUR128_MODE_TRUE_PEAK)
    (h : ∀ c, st.sample_peak.getD c 0 ≤ st.true_peak.getD c 0) :
    ∀ c, (stepFrame phases st f).sample_peak.getD c 0 ≤
      (stepFrame phases st f).true_peak.getD c 0 := by
  intro c
  have hsp2 : st.mode &&& EBUR128_MODE_SAMPLE_PEAK = EBUR128_MODE_SAMPLE_PEAK := hsp
  have htp2 : st.mode &&& EBUR128_MODE_TRUE_PEAK = EBUR128_MODE_TRUE_PEAK := htp
  rw [stepFrame_sample_peak, stepFrame_true_peak, if_pos hsp2, if_pos htp2,
    getD_map_range, getD_map_range]
  by_cases hc : c < st.channels
  · rw [if_pos hc, if_pos hc]
    exact max_le_max (h c) (abs_le_maxAbs_cons (f.getD c 0) (phases (f.getD c 0)))
  · rw [if_neg hc, if_neg hc]

lemma foldl_stepFrame_mode (phases : ℚ → List ℚ) :
    ∀ (frames : List (List ℚ)) (st : ebur128_state),
    (frames.foldl (stepFrame phases) st).mode = st.mode
  | [], _ => rfl
  | f :: fs, st => by
    rw [List.foldl_cons, foldl_stepFrame_mode phases fs, stepFrame_mode]

lemma foldl_stepFrame_channels (phases : ℚ → List ℚ) :
    ∀ (frames : List (List ℚ)) (st : ebur128_state),
    (frames.foldl (stepFrame phases) st).channels = st.channels
  | [], _ => rfl
  | f :: fs, st => by
    rw [List.foldl_cons, foldl_stepFrame_channels phases fs, stepFrame_channels]

lemma foldl_stepFrame_peakInv (phases : ℚ → List ℚ) :
    ∀ (frames : List (List ℚ)) (st : ebur128_state),
    modeSet st.mode EBUR128_MODE_SAMPLE_PEAK →
    modeSet st.mode EBUR128_MODE_TRUE_PEAK →
    (∀ c, st.sample_peak.getD c 0 ≤ st.true_peak.getD c 0) →
    ∀ c, (frames.foldl (stepFrame phases) st).sample_peak.getD c 0 ≤
      (frames.foldl (stepFrame phases) st).true_peak.getD c 0
  | [], _, _, _, h => h
  | f :: fs, st, hsp, htp, h => by
    rw [List.foldl_cons]
    exact foldl_stepFrame_peakInv phases fs (stepFrame phases st f)
      (by rw [stepFrame_mode]; exact hsp)
      (by rw [stepFrame_mode]; exact htp)
      (stepFrame_peakInv phases st f hsp htp h)

/-- C6: for a state initialized with both EBUR128_MODE_SAMPLE_PEAK and
EBUR128_MODE_TRUE_PEAK, after ingesting any sequence of frames, the value
reported by ebur128_true_peak for every channel index below the channel
count is at least the value reported by ebur128_sample_peak for that
channel (the sample peak is taken on raw samples, while the true peak is
taken over the oversampler outputs, which contain the original sample). -/
theorem true_peak_ge_sample_peak (coeffsOf : Nat → KCoeffs)
    (phases : ℚ → List ℚ) (channels samplerate mode : Nat)
    (frames : List (List ℚ)) (c : Nat) (outs outt : ℚ)
    (hsp : modeSet mode EBUR128_MODE_SAMPLE_PEAK)
    (htp : modeSet mode EBUR128_MODE_TRUE_PEAK) (hc : c < channels) :
    (ebur128_sample_peak
        (ebur128_add_frames phases
          (ebur128_init coeffsOf channels samplerate mode) frames).2 c outs).2 ≤
    (ebur128_true_peak
        (ebur128_add_frames phases
          (ebur128_init coeffsOf channels samplerate mode) frames).2 c outt).2 := by
  have hmode :
      ((ebur128_add_frames phases
        (ebur128_init coeffsOf channels samplerate mode) frames).2).mode = mode :=
    foldl_stepFrame_mode phases frames _
  have hch :
      ((ebur128_add_frames phases
        (ebur128_init coeffsOf channels samplerate mode) frames).2).channels =
        channels :=
    foldl_stepFrame_channels phases frames _
  have hsp2 : modeSet ((ebur128_add_frames phases
      (ebur128_init coeffsOf channels samplerate mode) frames).2).mode
      EBUR128_MODE_SAMPLE_PEAK := by
    rw [hmode]
    exact hsp
  have htp2 : modeSet ((ebur128_add_frames phases
      (ebur128_init coeffsOf channels samplerate mode) frames).2).mode
      EBUR128_MODE_TRUE_PEAK := by
    rw [hmode]
    exact htp
  have hc2 : c < ((ebur128_add_frames phases
      (ebur128_init coeffsOf channels samplerate mode) frames).2).channels := by
    rw [hch]
    exact hc
  have hinv := foldl_stepFrame_peakInv phases frames
    (ebur128_init coeffsOf channels samplerate mode) hsp htp
    (fun _ => le_refl _) c
  unfold ebur128_sample_peak ebur128_true_peak
  rw [if_neg (not_not_intro hsp2), if_neg (not_not_intro htp2),
    if_neg (not_le.mpr hc2), if_neg (not_le.mpr hc2)]
  exact hinv

/-- Witness for C6 at a concrete state: one channel, sample and true peak
modes, one ingested frame. -/
theorem true_peak_ge_sample_peak_witness :
    (ebur128_sample_peak
        (ebur128_add_frames (fun _ => [])
          (ebur128_init (fun _ => zeroKCoeffs) 1 10
            (EBUR128_MODE_SAMPLE_PEAK ||| EBUR128_MODE_TRUE_PEAK)) [[1]]).2
        0 0).2 ≤
    (ebur128_true_peak
        (ebur128_add_frames (fun _ => [])
          (ebur128_init (fun _ => zeroKCoeffs) 1 10
            (EBUR128_MODE_SAMPLE_PEAK ||| EBUR128_MODE_TRUE_PEAK)) [[1]]).2
        0 0).2 :=
  true_peak_ge_sample_peak (fun _ => zeroKCoeffs) (fun _ => []) 1 10
    (EBUR128_MODE_SAMPLE_PEAK ||| EBUR128_MODE_TRUE_PEAK) [[1]] 0 0 0
    (by decide) (by decide) (by decide)

/-- Witness for C10 at a concrete flag: the short-term flag is a
measurement flag and is not set in a mode word equal to HISTOGRAM alone. -/
theorem mode_histogram_bare_bit_witness :
    EBUR128_MODE_S ∈ measurementFlags ∧
    ¬ modeSet EBUR128_MODE_HISTOGRAM EBUR128_MODE_S :=
  ⟨by decide, mode_histogram_bare_bit.2.2.2.1 EBUR128_MODE_S (by decide)⟩
